import Mathlib

/-!
Shallow embedding of the publication-search frontend
(`SearchComponent`, `Pagination`, `SortFilter`, `DocumentClassification`,
`ApiService`) and proofs about the specified properties of the
search interaction controller.

Conventions of the embedding:
* JS numbers that can be `NaN` (date timestamps) are modelled by `JsNum`;
  ordinary finite numbers (relevance scores, durations) by `Rat`.
* `Array.prototype.sort(cmp)` is modelled as left-to-right insertion sort
  with the source's comparator: each element is inserted into the sorted
  prefix directly before the first element `y` with `cmp x y < 0`.  This is
  exactly the comparator-call behaviour of the binary insertion sort V8
  uses on short arrays, and on the two-element inputs used below every
  insertion-based sort makes the single comparator call shown.
* React state updates are modelled by explicit record updates on an `App`
  state; the timer queue of the JS event loop is modelled explicitly so
  that `setTimeout` / `clearTimeout` and the `useEffect` on `query` keep
  their operational meaning.
-/

namespace IRSearch

/-- `Publication` record, from the `Publication` interface of the API
service module. -/
structure Publication where
  title : String
  link : String
  authors : List String
  published_date : String
  abstract : String
  score : Rat
deriving DecidableEq, Repr

/-- `SearchResponse` record, from the `SearchResponse` interface of the API
service module. -/
structure SearchResponse where
  results : List Publication
  total : Nat
  page : Nat
  size : Nat
  total_pages : Nat
deriving DecidableEq, Repr

/-- A JS number that may be `NaN` (the result of `Date.getTime()` on an
invalid date).  Finite values are exact rationals. -/
inductive JsNum where
  | nan : JsNum
  | num : Rat → JsNum
deriving DecidableEq, Repr

/-- JS `>` on numbers: any comparison involving `NaN` is false. -/
def jsGt : JsNum → JsNum → Bool
  | JsNum.num a, JsNum.num b => decide (b < a)
  | _, _ => false

/-- JS `<` on numbers: any comparison involving `NaN` is false. -/
def jsLt : JsNum → JsNum → Bool
  | JsNum.num a, JsNum.num b => decide (a < b)
  | _, _ => false

/-- Digits of a decimal numeral to a natural number. -/
def digitsToNat (l : List Char) : Nat :=
  l.foldl (fun n c => n * 10 + (c.toNat - 48)) 0

/-- Split a character list at every `'-'` (the separators are dropped;
an empty input yields one empty field, as `"".split("-")` does in JS). -/
def splitDash : List Char → List (List Char)
  | [] => [[]]
  | c :: rest =>
    if c = '-' then [] :: splitDash rest
    else
      match splitDash rest with
      | [] => [[c]]
      | h :: t => (c :: h) :: t

/-- Model of `new Date(s).getTime()`.  It recognises ISO `YYYY-MM-DD`
dates, yielding a finite value strictly monotone in the calendar date
(the sort comparator only ever consumes the relative order of two
timestamps, so the exact millisecond value is irrelevant); every other
string — in particular the empty string — yields `NaN`, as in JS where an
unparsable string gives an Invalid Date whose `getTime()` is `NaN`. -/
def jsDateGetTime (s : String) : JsNum :=
  match splitDash s.data with
  | [y, m, d] =>
    if y.length = 4 ∧ m.length = 2 ∧ d.length = 2 ∧
       y.all Char.isDigit ∧ m.all Char.isDigit ∧ d.all Char.isDigit ∧
       1 ≤ digitsToNat m ∧ digitsToNat m ≤ 12 ∧
       1 ≤ digitsToNat d ∧ digitsToNat d ≤ 31 then
      JsNum.num ((digitsToNat y * 10000 + digitsToNat m * 100 + digitsToNat d : Nat) : Rat)
    else JsNum.nan
  | _ => JsNum.nan

/-- Sort direction, from the `"asc" | "desc"` union type. -/
inductive SortOrder where
  | asc : SortOrder
  | desc : SortOrder
deriving DecidableEq, Repr

/-- The value `aVal` / `bVal` extracted in the comparator of
`handleSortChange`: a number for `published_date` and `relevance`, a
string for `title`. -/
inductive SortVal where
  | numv : JsNum → SortVal
  | strv : String → SortVal
deriving DecidableEq, Repr

/-- JS `>` on the extracted sort values.  The two values always come from
the same `switch` branch, so mixed cases never arise in a run. -/
def valGt : SortVal → SortVal → Bool
  | SortVal.numv a, SortVal.numv b => jsGt a b
  | SortVal.strv a, SortVal.strv b => decide (b < a)
  | _, _ => false

/-- JS `<` on the extracted sort values. -/
def valLt : SortVal → SortVal → Bool
  | SortVal.numv a, SortVal.numv b => jsLt a b
  | SortVal.strv a, SortVal.strv b => decide (a < b)
  | _, _ => false

/-- Key extraction of the `handleSortChange` comparator: the `switch` on
`newSortBy`.  For `published_date` the source reads
`new Date(a.published_date || "").getTime()`; on strings `s || ""` is the
identity (it replaces only the falsy `""` by `""`), so the argument is
`a.published_date` itself.  For `title` the source lower-cases. -/
def getSortVal (newSortBy : String) (p : Publication) : SortVal :=
  if newSortBy = "published_date" then
    SortVal.numv (jsDateGetTime p.published_date)
  else if newSortBy = "title" then
    SortVal.strv p.title.toLower
  else
    SortVal.numv (JsNum.num p.score)

/-- The comparator passed to `sort` in `handleSortChange`:
ascending `aVal > bVal ? 1 : -1`, descending `aVal < bVal ? 1 : -1`.
Note it never returns `0`. -/
def pubCompare (newSortBy : String) (newSortOrder : SortOrder)
    (a b : Publication) : Int :=
  let aVal := getSortVal newSortBy a
  let bVal := getSortVal newSortBy b
  match newSortOrder with
  | SortOrder.asc => if valGt aVal bVal then 1 else -1
  | SortOrder.desc => if valLt aVal bVal then 1 else -1

/-- Insert `x` into the already-sorted prefix `l`: directly before the
first `y` with `cmp x y < 0` (the insertion position V8's binary insertion
sort computes). -/
def insertCmp (cmp : α → α → Int) (x : α) : List α → List α
  | [] => [x]
  | y :: ys => if cmp x y < 0 then x :: y :: ys else y :: insertCmp cmp x ys

/-- Model of `Array.prototype.sort(cmp)`: left-to-right insertion sort
(see the module docstring for the correspondence with V8). -/
def jsSort (cmp : α → α → Int) (l : List α) : List α :=
  l.foldl (fun acc x => insertCmp cmp x acc) []

/-- An entry of the pagination strip: a page number or the ellipsis
string. -/
inductive PageEntry where
  | page : Nat → PageEntry
  | ellipsis : PageEntry
deriving DecidableEq, Repr

/-- `getVisiblePages` from the `Pagination` component, translated
branch by branch (`showEllipsis` is `totalPages > 7`, inverted into the
first guard). -/
def getVisiblePages (currentPage totalPages : Nat) : List PageEntry :=
  if totalPages ≤ 7 then
    (List.range totalPages).map (fun i => PageEntry.page (i + 1))
  else if currentPage ≤ 4 then
    [PageEntry.page 1, PageEntry.page 2, PageEntry.page 3, PageEntry.page 4,
     PageEntry.page 5, PageEntry.ellipsis, PageEntry.page totalPages]
  else if totalPages - 3 ≤ currentPage then
    [PageEntry.page 1, PageEntry.ellipsis, PageEntry.page (totalPages - 4),
     PageEntry.page (totalPages - 3), PageEntry.page (totalPages - 2),
     PageEntry.page (totalPages - 1), PageEntry.page totalPages]
  else
    [PageEntry.page 1, PageEntry.ellipsis, PageEntry.page (currentPage - 1),
     PageEntry.page currentPage, PageEntry.page (currentPage + 1),
     PageEntry.ellipsis, PageEntry.page totalPages]

/-- The spec's four-case `visiblePages` algorithm, written from the spec's
words, to be compared with `getVisiblePages` from the source. -/
def visiblePagesSpec (current total : Nat) : List PageEntry :=
  if total ≤ 7 then
    (List.range total).map (fun i => PageEntry.page (i + 1))
  else if current ≤ 4 then
    [PageEntry.page 1, PageEntry.page 2, PageEntry.page 3, PageEntry.page 4,
     PageEntry.page 5, PageEntry.ellipsis, PageEntry.page total]
  else if total - 3 ≤ current then
    [PageEntry.page 1, PageEntry.ellipsis, PageEntry.page (total - 4),
     PageEntry.page (total - 3), PageEntry.page (total - 2),
     PageEntry.page (total - 1), PageEntry.page total]
  else
    [PageEntry.page 1, PageEntry.ellipsis, PageEntry.page (current - 1),
     PageEntry.page current, PageEntry.page (current + 1),
     PageEntry.ellipsis, PageEntry.page total]

/-- Whether a pagination-strip button is disabled: the source sets
`disabled={typeof page !== "number"}`, i.e. only ellipsis entries are
disabled — the button for the current page itself stays clickable. -/
def pageButtonDisabled : PageEntry → Bool
  | PageEntry.page _ => false
  | PageEntry.ellipsis => true

/-- Model of a JS thrown value as seen by `catch (err)`. -/
inductive JsThrown where
  | error : String → JsThrown
  | other : JsThrown
deriving DecidableEq, Repr

/-- The message stored by the catch branch:
`err instanceof Error ? err.message : "An error occurred"`. -/
def jsErrMsg : JsThrown → String
  | JsThrown.error m => m
  | JsThrown.other => "An error occurred"

/-- Outcome of the awaited `fetch` inside `ApiService.searchPublications`:
the promise either rejects (transport failure, carrying the message of the
thrown `TypeError`) or resolves with an HTTP status and a decoded body. -/
inductive FetchEvent where
  | reject : String → FetchEvent
  | respond : Nat → SearchResponse → FetchEvent
deriving DecidableEq, Repr

/-- What a caller of `ApiService.searchPublications` observes. -/
inductive ExecOutcome where
  | success : SearchResponse → ExecOutcome
  | failure : JsThrown → ExecOutcome
deriving DecidableEq, Repr

/-- `ApiService.searchPublications`: `response.ok` means
`200 ≤ status ≤ 299`; a non-ok response raises
`Error("HTTP error! status: " + status)`; a rejected fetch propagates as
the thrown error; otherwise the decoded body is returned. -/
def apiSearchPublications : FetchEvent → ExecOutcome
  | FetchEvent.reject msg => ExecOutcome.failure (JsThrown.error msg)
  | FetchEvent.respond status body =>
      if 200 ≤ status ∧ status ≤ 299 then ExecOutcome.success body
      else ExecOutcome.failure
        (JsThrown.error ("HTTP error! status: " ++ toString status))

/-- The hard-coded `setTimeout` delay of the debounce effect (4000 ms in
the source, despite its `300ms` comment). -/
def DebounceDelay : Nat := 4000

/-- The full state of one mounted `SearchComponent`, together with the
event-loop timer queue and two instrumentation logs (`emitted` records
debounced-query emissions, `requests` records issued network search
requests) used only to state properties. -/
structure App where
  now : Nat
  nextId : Nat
  timers : List (Nat × Nat × String)
  debounceRef : Option Nat
  emitted : List (Nat × String)
  requests : List (String × Nat)
  query : String
  debouncedQuery : String
  results : List Publication
  loading : Bool
  currentPage : Nat
  totalPages : Nat
  totalResults : Nat
  error : Option String
  searchTime : Rat
  sortBy : String
  sortOrder : SortOrder
deriving DecidableEq, Repr

/-- The synchronous prefix of `searchPublications(searchQuery, page)`:
`setLoading(true)`, `setError(null)`, and the network request goes out
(logged in `requests`). -/
def searchStart (a : App) (searchQuery : String) (page : Nat) : App :=
  { a with loading := true, error := none,
           requests := a.requests ++ [(searchQuery, page)] }

/-- The success continuation of `searchPublications`: record the measured
duration, apply the response fields, then `finally` clears `loading`.
Note that nothing here checks whether the response still matches the
current query or page. -/
def resolveOkApp (a : App) (data : SearchResponse) (dur : Rat) : App :=
  { a with searchTime := dur, results := data.results,
           totalPages := data.total_pages, totalResults := data.total,
           currentPage := data.page, loading := false }

/-- The `catch` branch of `searchPublications`: set the error message,
clear `results`, then `finally` clears `loading`. -/
def resolveErrApp (a : App) (e : JsThrown) : App :=
  { a with error := some (jsErrMsg e), results := [], loading := false }

/-- `handleSearch`: `setCurrentPage(1); searchPublications(query, 1)`.
No `clearTimeout` occurs in this handler. -/
def handleSearch (a : App) : App :=
  searchStart { a with currentPage := 1 } a.query 1

/-- `handlePageChange(page)`: `setCurrentPage(page);
searchPublications(query, page)` (the window scroll is a pure view
effect), with no guard comparing `page` to the current page. -/
def handlePageChange (a : App) (page : Nat) : App :=
  searchStart { a with currentPage := page } a.query page

/-- `handleSortChange`: store the new sort spec and replace `results` by
the locally sorted copy. -/
def handleSortChange (a : App) (newSortBy : String)
    (newSortOrder : SortOrder) : App :=
  { a with sortBy := newSortBy, sortOrder := newSortOrder,
           results := jsSort (pubCompare newSortBy newSortOrder) a.results }

/-- A debounce timer fires: `setDebouncedQuery(payload)`.  When the value
actually changes, React re-renders and the effect on `[debouncedQuery]`
runs `setCurrentPage(1); searchPublications(debouncedQuery, 1)`; when the
value is unchanged React bails out and no effect runs. -/
def fireTimer (a : App) (payload : String) : App :=
  if payload = a.debouncedQuery then a
  else searchStart { a with debouncedQuery := payload, currentPage := 1 }
         payload 1

/-- Advance the event loop to time `t`: every live timeout due by `t`
fires in schedule order and is removed from the queue; each fire is
logged in `emitted`. -/
def advanceTo (a : App) (t : Nat) : App :=
  let due := a.timers.filter (fun x => x.2.1 ≤ t)
  let a' := { a with now := t, timers := a.timers.filter (fun x => ¬ x.2.1 ≤ t) }
  due.foldl
    (fun acc x => fireTimer { acc with emitted := acc.emitted ++ [(x.2.1, x.2.2)] } x.2.2)
    a'

/-- A keystroke at time `t` setting the input to `q`: due timers fire
first; then `setQuery(q)` — if the value is unchanged React bails out and
nothing else happens; otherwise the effect on `[query]` re-runs: the
previous effect's cleanup calls `clearTimeout(debounceRef.current)`, then
the effect body arms `setTimeout(..., DebounceDelay)` and stores its id in
the ref. -/
def keystrokeEv (a : App) (t : Nat) (q : String) : App :=
  let a := advanceTo a t
  if q = a.query then a
  else
    let a := { a with query := q }
    let a := match a.debounceRef with
      | some id => { a with timers := a.timers.filter (fun x => ¬ x.1 = id) }
      | none => a
    { a with timers := a.timers ++ [(a.nextId, a.now + DebounceDelay, q)],
             debounceRef := some a.nextId, nextId := a.nextId + 1 }

/-- External events driving one mounted component. -/
inductive Ev where
  | keystroke : Nat → String → Ev
  | submit : Nat → Ev
  | pageChange : Nat → Nat → Ev
  | sortChange : String → SortOrder → Ev
  | tick : Nat → Ev
  | resolveOk : SearchResponse → Rat → Ev
  | resolveErr : JsThrown → Ev
deriving DecidableEq, Repr

/-- One event-loop step.  Time-stamped user events first let due timers
fire; a resolving network response applies its continuation directly (the
source ties no identity to the response, so the event carries only the
data). -/
def stepEv (a : App) : Ev → App
  | Ev.keystroke t q => keystrokeEv a t q
  | Ev.submit t => handleSearch (advanceTo a t)
  | Ev.pageChange t page => handlePageChange (advanceTo a t) page
  | Ev.sortChange f o => handleSortChange a f o
  | Ev.tick t => advanceTo a t
  | Ev.resolveOk data dur => resolveOkApp a data dur
  | Ev.resolveErr e => resolveErrApp a e

/-- Run a list of events. -/
def runEvs (a : App) (es : List Ev) : App := es.foldl stepEv a

/-- The controller states of the spec's state machine, derived from the
component state: `loading` means `Loading`, a set `error` means `Failed`,
otherwise `Ready`. -/
inductive CtrlState where
  | Loading : CtrlState
  | Ready : CtrlState
  | Failed : CtrlState
deriving DecidableEq, Repr

/-- Map a component state to the spec's controller state. -/
def ctrlState (a : App) : CtrlState :=
  if a.loading then CtrlState.Loading
  else if a.error.isSome then CtrlState.Failed
  else CtrlState.Ready

/-- The component once the mount effects have settled: the initial search
for the empty query has resolved and the mount-time debounce timer (id 0,
armed for the empty query) has expired without a visible change.  The
instrumentation logs start empty. -/
def app0 : App :=
  { now := 10000, nextId := 1, timers := [], debounceRef := some 0,
    emitted := [], requests := [],
    query := "", debouncedQuery := "", results := [], loading := false,
    currentPage := 1, totalPages := 1, totalResults := 0, error := none,
    searchTime := 0, sortBy := "relevance", sortOrder := SortOrder.desc }

/-- One complete `searchPublications(searchQuery, page)` call seen from
its caller: the synchronous prefix, the awaited executor outcome, then
the matching continuation (`then` / `catch`, with the shared `finally`). -/
def searchPublicationsRun (a : App) (searchQuery : String) (page : Nat)
    (fe : FetchEvent) (dur : Rat) : App :=
  let a' := searchStart a searchQuery page
  match apiSearchPublications fe with
  | ExecOutcome.success data => resolveOkApp a' data dur
  | ExecOutcome.failure e => resolveErrApp a' e

/-- `ClassificationResult` record of the classification flow (field list
from the classification response contract). -/
structure ClassificationResult where
  predicted_category : String
  confidence : Rat
  probabilities : List (String × Rat)
  model_used : String
  text_length : Nat
  processed_text_length : Nat
deriving DecidableEq, Repr

/-- The `"naive_bayes" | "logistic_regression"` union type. -/
inductive ModelType where
  | naive_bayes : ModelType
  | logistic_regression : ModelType
deriving DecidableEq, Repr

/-- Outcome of the awaited `ApiService.classifyText` call. -/
inductive ClassifyOutcome where
  | ok : ClassificationResult → ClassifyOutcome
  | err : ClassifyOutcome
deriving DecidableEq, Repr

/-- State of the `DocumentClassification` component, with an
instrumentation log of issued classification requests. -/
structure ClassApp where
  text : String
  modelType : ModelType
  result : Option ClassificationResult
  loading : Bool
  error : Option String
  classifyRequests : List (String × ModelType)
deriving DecidableEq, Repr

/-- Model of JS `String.prototype.trim`: drop whitespace from both ends
(whitespace per `Char.isWhitespace`, which covers the characters relevant
here). -/
def jsTrim (s : String) : String :=
  String.mk (((s.data.dropWhile Char.isWhitespace).reverse.dropWhile
    Char.isWhitespace).reverse)

/-- `handleClassify`: the `!text.trim()` guard fails locally with a
validation message and returns without touching the network; otherwise
the request is issued and the awaited outcome applied
(`then` / `catch` / `finally`). -/
def handleClassify (a : ClassApp) (outcome : ClassifyOutcome) : ClassApp :=
  if jsTrim a.text = "" then
    { a with error := some "Please enter some text to classify" }
  else
    let a' := { a with
                loading := true, error := none,
                classifyRequests := a.classifyRequests ++ [(a.text, a.modelType)] }
    match outcome with
    | ClassifyOutcome.ok r => { a' with result := some r, loading := false }
    | ClassifyOutcome.err =>
        { a' with error := some "Failed to classify text. Please try again.",
                  loading := false }

/-- Relation between successive keystrokes used in the debounce property:
time strictly increases, the gap stays below the debounce interval, and
the text actually changes (a `setQuery` with the unchanged value makes
React bail out, so it is not a keystroke the effect ever sees). -/
def keystrokeRel (p q : Nat × String) : Prop :=
  p.1 < q.1 ∧ q.1 < p.1 + DebounceDelay ∧ ¬ p.2 = q.2

instance keystrokeRelDec : DecidableRel keystrokeRel := fun p q =>
  inferInstanceAs (Decidable (p.1 < q.1 ∧ q.1 < p.1 + DebounceDelay ∧ ¬ p.2 = q.2))

/-- The timer-queue invariant of the component: at most one live timeout,
and any live timeout is the one whose id is stored in `debounceRef`. -/
def timerInv (a : App) : Prop :=
  a.timers.length ≤ 1 ∧ ∀ x ∈ a.timers, a.debounceRef = some x.1

/-- Sample publication with an empty (hence unparsable) date. -/
def pubA : Publication :=
  { title := "Alpha", link := "a", authors := [], published_date := "",
    abstract := "", score := 1 }

/-- Sample publication with a valid date and the same score as `pubA`. -/
def pubB : Publication :=
  { title := "Beta", link := "b", authors := [], published_date := "2020-01-01",
    abstract := "", score := 1 }

/-- Sample publication with a later date and a different score. -/
def pubC : Publication :=
  { title := "Gamma", link := "c", authors := [], published_date := "2021-05-05",
    abstract := "", score := 2 }

/-- Sample response belonging to an older request. -/
def respOld : SearchResponse :=
  { results := [pubA], total := 5, page := 1, size := 10, total_pages := 1 }

/-- Sample response belonging to a newer request. -/
def respNew : SearchResponse :=
  { results := [pubC], total := 7, page := 1, size := 10, total_pages := 1 }

/-- Classification component state holding whitespace-only input. -/
def classAppBlank : ClassApp :=
  { text := "   ", modelType := ModelType.naive_bayes, result := none,
    loading := false, error := none, classifyRequests := [] }

/-- Classification component state holding non-blank input. -/
def classAppText : ClassApp :=
  { classAppBlank with text := " hi " }

theorem valGt_self (v : SortVal) : valGt v v = false := by
  cases v with
  | numv x =>
    cases x with
    | nan => rfl
    | num q => exact decide_eq_false (lt_irrefl q)
  | strv s => exact decide_eq_false (lt_irrefl s)

theorem valLt_self (v : SortVal) : valLt v v = false := by
  cases v with
  | numv x =>
    cases x with
    | nan => rfl
    | num q => exact decide_eq_false (lt_irrefl q)
  | strv s => exact decide_eq_false (lt_irrefl s)

theorem jsGt_nan (x : JsNum) : jsGt x JsNum.nan = false := by cases x <;> rfl

theorem jsLt_nan (x : JsNum) : jsLt x JsNum.nan = false := by cases x <;> rfl

/-- C3: for every `1 ≤ current ≤ total`, `getVisiblePages` follows the
spec's four-case algorithm exactly, never returns more than 7 entries,
and contains page 1 and page `total` whenever `total > 1` (determinism is
immediate since it is a pure function of its two arguments). -/
theorem visiblePages_spec (c t : Nat) (h1 : 1 ≤ c) (h2 : c ≤ t) :
    getVisiblePages c t = visiblePagesSpec c t ∧
    (getVisiblePages c t).length ≤ 7 ∧
    (1 < t → PageEntry.page 1 ∈ getVisiblePages c t ∧
             PageEntry.page t ∈ getVisiblePages c t) := by
  refine ⟨rfl, ?_, ?_⟩ <;> unfold getVisiblePages
  · split_ifs with ht hc hr
    · simpa using ht
    · simp
    · simp
    · simp
  · intro hlt
    split_ifs with ht hc hr
    · constructor
      · simp only [List.mem_map, List.mem_range, PageEntry.page.injEq]
        exact ⟨0, by omega, by omega⟩
      · simp only [List.mem_map, List.mem_range, PageEntry.page.injEq]
        exact ⟨t - 1, by omega, by omega⟩
    · simp
    · simp
    · simp

/-- C3 witness at `current = 6`, `total = 20`. -/
theorem visiblePages_spec_witness :
    getVisiblePages 6 20 = visiblePagesSpec 6 20 ∧
    (getVisiblePages 6 20).length ≤ 7 ∧
    (1 < 20 → PageEntry.page 1 ∈ getVisiblePages 6 20 ∧
              PageEntry.page 20 ∈ getVisiblePages 6 20) :=
  visiblePages_spec 6 20 (by decide) (by decide)

/-- C4 amended: with the source's comparator (which never returns 0), a
two-element list whose elements have equal sort keys is reversed by the
local sort, for every sort field and direction — ties do not keep their
original relative order, and sorting an already-sorted list containing
ties does not return an identical list. -/
theorem sort_tie_swaps (f : String) (ord : SortOrder) (a b : Publication)
    (h : getSortVal f a = getSortVal f b) :
    jsSort (pubCompare f ord) [a, b] = [b, a] := by
  have hgt : valGt (getSortVal f b) (getSortVal f a) = false := by
    rw [h]; exact valGt_self _
  have hlt : valLt (getSortVal f b) (getSortVal f a) = false := by
    rw [h]; exact valLt_self _
  cases ord <;> simp [jsSort, insertCmp, pubCompare, hgt, hlt]

/-- C4 counterexample: `pubA` and `pubB` have equal relevance scores; the
local sort reverses them (stability fails) and sorting the already-sorted
output once more changes it back (idempotence fails). -/
theorem sort_not_stable_counterexample :
    jsSort (pubCompare "relevance" SortOrder.asc) [pubA, pubB] = [pubB, pubA] ∧
    jsSort (pubCompare "relevance" SortOrder.asc)
        (jsSort (pubCompare "relevance" SortOrder.asc) [pubA, pubB]) ≠
      jsSort (pubCompare "relevance" SortOrder.asc) [pubA, pubB] := by
  constructor
  · rfl
  · decide

/-- C4 witness: the tie hypothesis holds for `pubA`, `pubB`, and the
descending sort swaps them. -/
theorem sort_tie_swaps_witness :
    getSortVal "relevance" pubA = getSortVal "relevance" pubB ∧
    jsSort (pubCompare "relevance" SortOrder.desc) [pubA, pubB] = [pubB, pubA] :=
  ⟨by decide, sort_tie_swaps "relevance" SortOrder.desc pubA pubB (by decide)⟩

/-- C7 amended: a publication whose `published_date` is empty or
unparsable gets the key `NaN`, not the epoch; every comparison involving
`NaN` makes the comparator return `-1`, so in a two-element list the
other element is always placed first — under both ascending and
descending order — rather than the unparsable-dated element sorting as if
its timestamp were minimal. -/
theorem sort_unparsable_date (u v : Publication) (ord : SortOrder)
    (h : jsDateGetTime u.published_date = JsNum.nan) :
    jsSort (pubCompare "published_date" ord) [u, v] = [v, u] := by
  have hgt : valGt (getSortVal "published_date" v)
      (getSortVal "published_date" u) = false := by
    simp [getSortVal, h, valGt, jsGt_nan]
  have hlt : valLt (getSortVal "published_date" v)
      (getSortVal "published_date" u) = false := by
    simp [getSortVal, h, valLt, jsLt_nan]
  cases ord <;> simp [jsSort, insertCmp, pubCompare, hgt, hlt]

/-- C7 counterexample: `pubA` has an empty `published_date`, whose key is
`NaN` and not the epoch; under ascending date order it comes last (a
minimal key would come first), and with the other input order under
descending order it comes first (a minimal key would come last). -/
theorem sort_unparsable_date_counterexample :
    jsDateGetTime pubA.published_date = JsNum.nan ∧
    jsDateGetTime pubA.published_date ≠ JsNum.num 0 ∧
    jsSort (pubCompare "published_date" SortOrder.asc) [pubA, pubB] = [pubB, pubA] ∧
    jsSort (pubCompare "published_date" SortOrder.desc) [pubB, pubA] = [pubA, pubB] := by
  refine ⟨rfl, by decide, by decide, by decide⟩

/-- C7 witness: the `NaN`-key hypothesis holds for `pubA` and the
ascending date sort places `pubC` before it. -/
theorem sort_unparsable_date_witness :
    jsDateGetTime pubA.published_date = JsNum.nan ∧
    jsSort (pubCompare "published_date" SortOrder.asc) [pubA, pubC] = [pubC, pubA] :=
  ⟨rfl, sort_unparsable_date pubA pubC SortOrder.asc rfl⟩

/-- C1 amended: the success continuation applies every resolving response
unconditionally — whatever response resolves last determines
`results`/`totalResults`/`totalPages`/`currentPage`, regardless of the
order in which the causing requests were issued (the code carries no
token by which a continuation could detect staleness). -/
theorem response_last_resolve_wins (a : App) (es : List Ev)
    (data : SearchResponse) (dur : Rat) :
    (runEvs a (es ++ [Ev.resolveOk data dur])).results = data.results ∧
    (runEvs a (es ++ [Ev.resolveOk data dur])).totalResults = data.total ∧
    (runEvs a (es ++ [Ev.resolveOk data dur])).totalPages = data.total_pages ∧
    (runEvs a (es ++ [Ev.resolveOk data dur])).currentPage = data.page := by
  simp [runEvs, List.foldl_append, stepEv, resolveOkApp]

/-- C1 counterexample: two requests go out (first `("", 1)`, then
`("b", 1)` after a keystroke and a second submit); the newer request's
response `respNew` resolves first and is applied (`totalResults = 7`),
then the older request's response `respOld` resolves late and silently
overwrites the newer state (`totalResults` drops to 5 and `results`
becomes `respOld.results`). -/
theorem stale_response_overwrites_counterexample :
    (runEvs app0 [Ev.submit 10000, Ev.keystroke 10100 "b", Ev.submit 10200,
        Ev.resolveOk respNew 0]).requests = [("", 1), ("b", 1)] ∧
    (runEvs app0 [Ev.submit 10000, Ev.keystroke 10100 "b", Ev.submit 10200,
        Ev.resolveOk respNew 0]).totalResults = 7 ∧
    (runEvs app0 [Ev.submit 10000, Ev.keystroke 10100 "b", Ev.submit 10200,
        Ev.resolveOk respNew 0, Ev.resolveOk respOld 0]).totalResults = 5 ∧
    (runEvs app0 [Ev.submit 10000, Ev.keystroke 10100 "b", Ev.submit 10200,
        Ev.resolveOk respNew 0, Ev.resolveOk respOld 0]).results = [pubA] := by
  refine ⟨by decide, by decide, by decide, by decide⟩

/-- C5 amended: `handlePageChange` has no guard comparing the target to
the current page: even for `page = currentPage` it issues a network
request for `(query, page)` and enters the loading state, and the
pagination strip's button for the current page is not disabled. -/
theorem pageChange_same_page_requests (a : App) :
    (handlePageChange a a.currentPage).requests
        = a.requests ++ [(a.query, a.currentPage)] ∧
    (handlePageChange a a.currentPage).loading = true ∧
    (handlePageChange a a.currentPage).currentPage = a.currentPage ∧
    pageButtonDisabled (PageEntry.page a.currentPage) = false :=
  ⟨rfl, rfl, rfl, rfl⟩

/-- C5 counterexample: in the `Ready` state `app0` (current page 1), a
page-change request targeting page 1 issues a network request and flips
the loading flag — it is not a no-op. -/
theorem pageChange_same_page_counterexample :
    ctrlState app0 = CtrlState.Ready ∧ app0.currentPage = 1 ∧
    (handlePageChange app0 1).requests ≠ app0.requests ∧
    (handlePageChange app0 1).loading ≠ app0.loading := by
  refine ⟨by decide, by decide, by decide, by decide⟩

/-- C6 amended: `handleSearch` resets the page to 1 and immediately
issues a request for `(query, 1)`, but it does not cancel a pending
debounce timer: the timer queue and `debounceRef` are untouched. -/
theorem submit_does_not_cancel_debounce (a : App) :
    (handleSearch a).currentPage = 1 ∧
    (handleSearch a).requests = a.requests ++ [(a.query, 1)] ∧
    (handleSearch a).timers = a.timers ∧
    (handleSearch a).debounceRef = a.debounceRef :=
  ⟨rfl, rfl, rfl, rfl⟩

/-- C6 counterexample: after a keystroke arms the debounce timer, an
explicit submit issues its immediate request but leaves the timer
pending; when the timer later fires it changes `debouncedQuery` and a
second, duplicate search request for the same query goes out. -/
theorem submit_leaves_timer_counterexample :
    (runEvs app0 [Ev.keystroke 10000 "ml", Ev.submit 10100]).timers ≠ [] ∧
    (runEvs app0 [Ev.keystroke 10000 "ml", Ev.submit 10100]).requests
        = [("ml", 1)] ∧
    (runEvs app0 [Ev.keystroke 10000 "ml", Ev.submit 10100,
        Ev.tick 14000]).requests = [("ml", 1), ("ml", 1)] := by
  refine ⟨by decide, by decide, by decide⟩

theorem httpMsg_ne_empty (n : Nat) :
    ("HTTP error! status: " ++ toString n) ≠ "" := by
  intro h
  have hlen : ("HTTP error! status: " ++ toString n).length = 0 := by rw [h]; rfl
  rw [String.length_append] at hlen
  have h20 : ("HTTP error! status: " : String).length = 20 := by decide
  omega

/-- C8: a failing request (transport rejection carrying the thrown
error's non-empty message, or a non-2xx HTTP status which the executor
turns into an `Error`) makes the controller store a non-empty error
message, clear the results and end in the `Failed` state; a successful
request ends with no error set, in the `Ready` state. -/
theorem request_failure_sets_error (a : App) (q : String) (p : Nat)
    (fe : FetchEvent) (dur : Rat)
    (hm : ∀ m, fe = FetchEvent.reject m → m ≠ "") :
    (∀ e, apiSearchPublications fe = ExecOutcome.failure e →
      ∃ m, (searchPublicationsRun a q p fe dur).error = some m ∧ m ≠ "" ∧
        (searchPublicationsRun a q p fe dur).results = [] ∧
        ctrlState (searchPublicationsRun a q p fe dur) = CtrlState.Failed) ∧
    (∀ d, apiSearchPublications fe = ExecOutcome.success d →
      (searchPublicationsRun a q p fe dur).error = none ∧
      ctrlState (searchPublicationsRun a q p fe dur) = CtrlState.Ready) := by
  cases fe with
  | reject msg =>
    constructor
    · intro e he
      refine ⟨msg, ?_, hm msg rfl, ?_, ?_⟩ <;>
        simp [searchPublicationsRun, apiSearchPublications, resolveErrApp,
          searchStart, jsErrMsg, ctrlState]
    · intro d hd
      exact absurd hd (by simp [apiSearchPublications])
  | respond status body =>
    by_cases hok : 200 ≤ status ∧ status ≤ 299
    · constructor
      · intro e he
        simp [apiSearchPublications, hok] at he
      · intro d hd
        constructor <;>
          simp [searchPublicationsRun, apiSearchPublications, hok,
            resolveOkApp, searchStart, ctrlState]
    · constructor
      · intro e he
        refine ⟨"HTTP error! status: " ++ toString status, ?_,
          httpMsg_ne_empty status, ?_, ?_⟩ <;>
          simp [searchPublicationsRun, apiSearchPublications, hok,
            resolveErrApp, searchStart, jsErrMsg, ctrlState]
      · intro d hd
        simp [apiSearchPublications, hok] at hd

/-- C8 witness at a concrete non-2xx response. -/
theorem request_failure_sets_error_witness :
    (searchPublicationsRun app0 "x" 1 (FetchEvent.respond 404 respOld) 0).results
        = [] ∧
    ctrlState (searchPublicationsRun app0 "x" 1 (FetchEvent.respond 404 respOld) 0)
        = CtrlState.Failed := by
  obtain ⟨m, hm1, hm2, hm3, hm4⟩ :=
    (request_failure_sets_error app0 "x" 1 (FetchEvent.respond 404 respOld) 0
        (fun m h => FetchEvent.noConfusion h)).1
      (JsThrown.error ("HTTP error! status: " ++ toString 404))
      (by simp [apiSearchPublications])
  exact ⟨hm3, hm4⟩

/-- C9: classification of text that trims to empty fails locally with the
validation message and issues no network request; for text that is
non-empty after trimming, the classification request is issued. -/
theorem classify_blank_guard (a : ClassApp) (outcome : ClassifyOutcome) :
    (jsTrim a.text = "" →
      (handleClassify a outcome).error
          = some "Please enter some text to classify" ∧
      (handleClassify a outcome).classifyRequests = a.classifyRequests) ∧
    (¬ jsTrim a.text = "" →
      (handleClassify a outcome).classifyRequests
        = a.classifyRequests ++ [(a.text, a.modelType)]) := by
  constructor
  · intro h
    simp [handleClassify, h]
  · intro h
    cases outcome <;> simp [handleClassify, h]

/-- C9 witness: blank input is rejected with no request; non-blank input
issues exactly its request. -/
theorem classify_blank_guard_witness :
    jsTrim classAppBlank.text = "" ∧
    (handleClassify classAppBlank ClassifyOutcome.err).classifyRequests
        = classAppBlank.classifyRequests ∧
    ¬ jsTrim classAppText.text = "" ∧
    (handleClassify classAppText ClassifyOutcome.err).classifyRequests
        = classAppText.classifyRequests
            ++ [(classAppText.text, classAppText.modelType)] :=
  ⟨by decide,
   ((classify_blank_guard classAppBlank ClassifyOutcome.err).1 (by decide)).2,
   by decide,
   (classify_blank_guard classAppText ClassifyOutcome.err).2 (by decide)⟩

/-- C10: a failing `searchPublications` call changes only `error`,
`results` and the loading flag; `query`, `debouncedQuery`, `currentPage`,
`totalPages`, `totalResults`, `searchTime` (the last recorded duration),
`sortBy` and `sortOrder` keep the values they had when the request was
issued. -/
theorem request_failure_frame (a : App) (q : String) (p : Nat)
    (fe : FetchEvent) (dur : Rat) (e : JsThrown)
    (hf : apiSearchPublications fe = ExecOutcome.failure e) :
    (searchPublicationsRun a q p fe dur).query = a.query ∧
    (searchPublicationsRun a q p fe dur).debouncedQuery = a.debouncedQuery ∧
    (searchPublicationsRun a q p fe dur).currentPage = a.currentPage ∧
    (searchPublicationsRun a q p fe dur).totalPages = a.totalPages ∧
    (searchPublicationsRun a q p fe dur).totalResults = a.totalResults ∧
    (searchPublicationsRun a q p fe dur).searchTime = a.searchTime ∧
    (searchPublicationsRun a q p fe dur).sortBy = a.sortBy ∧
    (searchPublicationsRun a q p fe dur).sortOrder = a.sortOrder ∧
    (searchPublicationsRun a q p fe dur).error = some (jsErrMsg e) ∧
    (searchPublicationsRun a q p fe dur).results = [] ∧
    (searchPublicationsRun a q p fe dur).loading = false := by
  simp [searchPublicationsRun, hf, resolveErrApp, searchStart]

theorem fireTimer_fields (a : App) (q : String) :
    (fireTimer a q).timers = a.timers ∧
    (fireTimer a q).debounceRef = a.debounceRef ∧
    (fireTimer a q).now = a.now ∧
    (fireTimer a q).nextId = a.nextId ∧
    (fireTimer a q).query = a.query ∧
    (fireTimer a q).emitted = a.emitted := by
  unfold fireTimer searchStart
  split <;> exact ⟨rfl, rfl, rfl, rfl, rfl, rfl⟩

theorem fireFold_fields (l : List (Nat × Nat × String)) :
    ∀ a : App,
    ((l.foldl (fun acc x =>
        fireTimer { acc with emitted := acc.emitted ++ [(x.2.1, x.2.2)] } x.2.2)
        a).timers = a.timers ∧
     (l.foldl (fun acc x =>
        fireTimer { acc with emitted := acc.emitted ++ [(x.2.1, x.2.2)] } x.2.2)
        a).debounceRef = a.debounceRef ∧
     (l.foldl (fun acc x =>
        fireTimer { acc with emitted := acc.emitted ++ [(x.2.1, x.2.2)] } x.2.2)
        a).now = a.now ∧
     (l.foldl (fun acc x =>
        fireTimer { acc with emitted := acc.emitted ++ [(x.2.1, x.2.2)] } x.2.2)
        a).nextId = a.nextId ∧
     (l.foldl (fun acc x =>
        fireTimer { acc with emitted := acc.emitted ++ [(x.2.1, x.2.2)] } x.2.2)
        a).query = a.query ∧
     (l.foldl (fun acc x =>
        fireTimer { acc with emitted := acc.emitted ++ [(x.2.1, x.2.2)] } x.2.2)
        a).emitted = a.emitted ++ l.map (fun x => (x.2.1, x.2.2))) := by
  induction l with
  | nil => intro a; simp
  | cons x xs ih =>
    intro a
    obtain ⟨h1, h2, h3, h4, h5, h6⟩ :=
      ih (fireTimer { a with emitted := a.emitted ++ [(x.2.1, x.2.2)] } x.2.2)
    obtain ⟨f1, f2, f3, f4, f5, f6⟩ :=
      fireTimer_fields { a with emitted := a.emitted ++ [(x.2.1, x.2.2)] } x.2.2
    simp only [List.foldl_cons, List.map_cons]
    refine ⟨?_, ?_, ?_, ?_, ?_, ?_⟩
    · rw [h1, f1]
    · rw [h2, f2]
    · rw [h3, f3]
    · rw [h4, f4]
    · rw [h5, f5]
    · rw [h6, f6]; simp

theorem advanceTo_fields (a : App) (t : Nat) :
    (advanceTo a t).timers = a.timers.filter (fun x => ¬ x.2.1 ≤ t) ∧
    (advanceTo a t).debounceRef = a.debounceRef ∧
    (advanceTo a t).now = t ∧
    (advanceTo a t).nextId = a.nextId ∧
    (advanceTo a t).query = a.query ∧
    (advanceTo a t).emitted = a.emitted ++
      (a.timers.filter (fun x => x.2.1 ≤ t)).map (fun x => (x.2.1, x.2.2)) := by
  unfold advanceTo
  obtain ⟨h1, h2, h3, h4, h5, h6⟩ :=
    fireFold_fields (a.timers.filter (fun x => x.2.1 ≤ t))
      { a with now := t, timers := a.timers.filter (fun x => ¬ x.2.1 ≤ t) }
  exact ⟨h1, h2, h3, h4, h5, h6⟩

theorem advanceTo_timerInv (a : App) (t : Nat) (h : timerInv a) :
    timerInv (advanceTo a t) := by
  obtain ⟨g1, g2, _, _, _, _⟩ := advanceTo_fields a t
  constructor
  · rw [g1]
    exact le_trans (List.length_filter_le _ _) h.1
  · intro x hx
    rw [g1] at hx
    rw [g2]
    exact h.2 x (List.mem_of_mem_filter hx)

theorem keystrokeEv_armed (a : App) (t : Nat) (q : String) (id : Nat)
    (h1 : a.timers = [(id, a.now + DebounceDelay, a.query)])
    (h2 : a.debounceRef = some id)
    (hft : t < a.now + DebounceDelay) (hq : ¬ q = a.query) :
    (keystrokeEv a t q).timers = [(a.nextId, t + DebounceDelay, q)] ∧
    (keystrokeEv a t q).debounceRef = some a.nextId ∧
    (keystrokeEv a t q).now = t ∧
    (keystrokeEv a t q).nextId = a.nextId + 1 ∧
    (keystrokeEv a t q).query = q ∧
    (keystrokeEv a t q).emitted = a.emitted := by
  obtain ⟨g1, g2, g3, g4, g5, g6⟩ := advanceTo_fields a t
  have hnotdue : ¬ a.now + DebounceDelay ≤ t := Nat.not_le.mpr hft
  have hA1 : (advanceTo a t).timers = [(id, a.now + DebounceDelay, a.query)] := by
    rw [g1, h1]; simp [List.filter_cons, hnotdue]
  have hA6 : (advanceTo a t).emitted = a.emitted := by
    rw [g6, h1]; simp [List.filter_cons, hnotdue]
  have hq' : ¬ q = (advanceTo a t).query := by rw [g5]; exact hq
  unfold keystrokeEv
  rw [if_neg hq']
  rw [g2, h2]
  simp only [hA1, hA6, g3, g4, g5]
  simp

theorem keystrokeEv_idle (a : App) (t : Nat) (q : String)
    (h1 : a.timers = []) (hq : ¬ q = a.query) :
    (keystrokeEv a t q).timers = [(a.nextId, t + DebounceDelay, q)] ∧
    (keystrokeEv a t q).debounceRef = some a.nextId ∧
    (keystrokeEv a t q).now = t ∧
    (keystrokeEv a t q).nextId = a.nextId + 1 ∧
    (keystrokeEv a t q).query = q ∧
    (keystrokeEv a t q).emitted = a.emitted := by
  obtain ⟨g1, g2, g3, g4, g5, g6⟩ := advanceTo_fields a t
  have hA1 : (advanceTo a t).timers = [] := by rw [g1, h1]; rfl
  have hA6 : (advanceTo a t).emitted = a.emitted := by rw [g6, h1]; simp
  have hq' : ¬ q = (advanceTo a t).query := by rw [g5]; exact hq
  unfold keystrokeEv
  rw [if_neg hq']
  rw [g2]
  cases hcase : a.debounceRef with
  | none => simp only [hA1, hA6, g3, g4, g5]; simp
  | some j => simp only [hA1, hA6, g3, g4, g5]; simp

theorem keystrokeEv_timerInv (a : App) (t : Nat) (q : String) (h : timerInv a) :
    timerInv (keystrokeEv a t q) := by
  have hA := advanceTo_timerInv a t h
  simp only [keystrokeEv]
  split
  · exact hA
  · rename_i hq
    cases hcase : (advanceTo a t).debounceRef with
    | none =>
      have hnil : (advanceTo a t).timers = [] := by
        cases htim : (advanceTo a t).timers with
        | nil => rfl
        | cons y ys =>
          have := hA.2 y (by rw [htim]; exact List.mem_cons_self y ys)
          rw [hcase] at this
          exact Option.noConfusion this
      constructor
      · simp [hnil]
      · intro x hx
        simp [hnil] at hx
        simp [hx]
    | some j =>
      have hclear : (advanceTo a t).timers.filter
          (fun x => ¬ x.1 = j) = [] := by
        rw [List.filter_eq_nil_iff]
        intro x hx
        have := hA.2 x hx
        rw [hcase] at this
        have hxj : x.1 = j := by
          injection this with h'
          exact h'.symm
        simp [hxj]
      dsimp only
      constructor
      · rw [hclear]
        simp
      · intro x hx
        rw [hclear] at hx
        simp at hx
        simp [hx]

theorem stepEv_timerInv (a : App) (e : Ev) (h : timerInv a) :
    timerInv (stepEv a e) := by
  cases e with
  | keystroke t q => exact keystrokeEv_timerInv a t q h
  | submit t => exact advanceTo_timerInv a t h
  | pageChange t p => exact advanceTo_timerInv a t h
  | sortChange f o => exact h
  | tick t => exact advanceTo_timerInv a t h
  | resolveOk data dur => exact h
  | resolveErr e => exact h

theorem runEvs_timerInv (es : List Ev) :
    ∀ a : App, timerInv a → timerInv (runEvs a es) := by
  induction es with
  | nil => exact fun a h => h
  | cons e es ih => exact fun a h => ih (stepEv a e) (stepEv_timerInv a e h)

theorem runEvs_append (a : App) (l1 l2 : List Ev) :
    runEvs a (l1 ++ l2) = runEvs (runEvs a l1) l2 := by
  simp [runEvs, List.foldl_append]

theorem debounce_chain_run (ks : List (Nat × String)) :
    ∀ (a : App) (id : Nat),
      a.timers = [(id, a.now + DebounceDelay, a.query)] →
      a.debounceRef = some id →
      List.Chain keystrokeRel (a.now, a.query) ks →
      ∃ j,
        (runEvs a (ks.map (fun p => Ev.keystroke p.1 p.2))).timers
          = [(j, (runEvs a (ks.map (fun p => Ev.keystroke p.1 p.2))).now
                   + DebounceDelay,
              (runEvs a (ks.map (fun p => Ev.keystroke p.1 p.2))).query)] ∧
        (runEvs a (ks.map (fun p => Ev.keystroke p.1 p.2))).debounceRef = some j ∧
        (runEvs a (ks.map (fun p => Ev.keystroke p.1 p.2))).emitted = a.emitted ∧
        ((runEvs a (ks.map (fun p => Ev.keystroke p.1 p.2))).now,
         (runEvs a (ks.map (fun p => Ev.keystroke p.1 p.2))).query)
          = ks.getLastD (a.now, a.query) := by
  induction ks with
  | nil =>
    intro a id h1 h2 _
    exact ⟨id, h1, h2, rfl, rfl⟩
  | cons k ks ih =>
    intro a id h1 h2 hch
    rw [List.chain_cons] at hch
    obtain ⟨⟨hlt, hgap, hne⟩, hch'⟩ := hch
    have hq : ¬ k.2 = a.query := fun hh => hne (hh ▸ rfl)
    obtain ⟨t1, t2, t3, t4, t5, t6⟩ := keystrokeEv_armed a k.1 k.2 id h1 h2 hgap hq
    have hA1 : (keystrokeEv a k.1 k.2).timers
        = [(a.nextId, (keystrokeEv a k.1 k.2).now + DebounceDelay,
            (keystrokeEv a k.1 k.2).query)] := by rw [t1, t3, t5]
    have hpair : ((keystrokeEv a k.1 k.2).now, (keystrokeEv a k.1 k.2).query) = k := by
      rw [t3, t5]
    have hch2 : List.Chain keystrokeRel
        ((keystrokeEv a k.1 k.2).now, (keystrokeEv a k.1 k.2).query) ks := by
      rw [hpair]; exact hch'
    obtain ⟨j, b1, b2, b3, b4⟩ := ih (keystrokeEv a k.1 k.2) a.nextId hA1 t2 hch2
    have hrun : runEvs a ((k :: ks).map (fun p => Ev.keystroke p.1 p.2))
        = runEvs (keystrokeEv a k.1 k.2)
            (ks.map (fun p => Ev.keystroke p.1 p.2)) := rfl
    refine ⟨j, ?_, ?_, ?_, ?_⟩
    · rw [hrun]; exact b1
    · rw [hrun]; exact b2
    · rw [hrun, b3, t6]
    · rw [hrun, b4, hpair, List.getLastD_cons]

theorem advanceTo_fire_single (a : App) (j ft : Nat) (ql : String) (t : Nat)
    (h1 : a.timers = [(j, ft, ql)]) (hle : ft ≤ t) :
    (advanceTo a t).emitted = a.emitted ++ [(ft, ql)] ∧
    (advanceTo a t).timers = [] := by
  obtain ⟨g1, _, _, _, _, g6⟩ := advanceTo_fields a t
  constructor
  · rw [g6, h1]; simp [List.filter_cons, hle]
  · rw [g1, h1]; simp [List.filter_cons, hle]

/-- C2: for every nonempty keystroke sequence whose consecutive events
are separated by less than the debounce interval (each keystroke changing
the text, the first arriving after the mount effects settle), exactly one
debounced-query emission occurs — `DebounceDelay` after the last
keystroke, carrying the last keystroke's text — and along every prefix of
the run at most one timer firing is pending, because each keystroke
cancels the stored timeout before scheduling a new one. -/
theorem debounce_collapses_keystrokes (k : Nat × String)
    (ks : List (Nat × String))
    (hq : ¬ k.2 = "") (hnow : app0.now < k.1)
    (hch : List.Chain keystrokeRel k ks) :
    (runEvs app0 (((k :: ks).map (fun p => Ev.keystroke p.1 p.2))
        ++ [Ev.tick ((ks.getLastD k).1 + DebounceDelay)])).emitted
      = [((ks.getLastD k).1 + DebounceDelay, (ks.getLastD k).2)] ∧
    ∀ i, ((runEvs app0 ((((k :: ks).map (fun p => Ev.keystroke p.1 p.2))
        ++ [Ev.tick ((ks.getLastD k).1 + DebounceDelay)]).take i)).timers).length
      ≤ 1 := by
  have happ0inv : timerInv app0 := by
    constructor
    · simp [app0]
    · intro x hx
      simp [app0] at hx
  constructor
  · have hq0 : ¬ k.2 = app0.query := hq
    obtain ⟨s1, s2, s3, s4, s5, s6⟩ := keystrokeEv_idle app0 k.1 k.2 rfl hq0
    have hA1 : (keystrokeEv app0 k.1 k.2).timers
        = [(app0.nextId, (keystrokeEv app0 k.1 k.2).now + DebounceDelay,
            (keystrokeEv app0 k.1 k.2).query)] := by rw [s1, s3, s5]
    have hpair : ((keystrokeEv app0 k.1 k.2).now,
        (keystrokeEv app0 k.1 k.2).query) = k := by rw [s3, s5]
    have hch2 : List.Chain keystrokeRel
        ((keystrokeEv app0 k.1 k.2).now, (keystrokeEv app0 k.1 k.2).query) ks := by
      rw [hpair]; exact hch
    obtain ⟨j, b1, b2, b3, b4⟩ :=
      debounce_chain_run ks (keystrokeEv app0 k.1 k.2) app0.nextId hA1 s2 hch2
    rw [hpair] at b4
    have hlast1 : (runEvs (keystrokeEv app0 k.1 k.2)
        (ks.map (fun p => Ev.keystroke p.1 p.2))).now = (ks.getLastD k).1 := by
      have := congrArg Prod.fst b4
      simpa using this
    have hlast2 : (runEvs (keystrokeEv app0 k.1 k.2)
        (ks.map (fun p => Ev.keystroke p.1 p.2))).query = (ks.getLastD k).2 := by
      have := congrArg Prod.snd b4
      simpa using this
    obtain ⟨e1, _⟩ := advanceTo_fire_single
      (runEvs (keystrokeEv app0 k.1 k.2) (ks.map (fun p => Ev.keystroke p.1 p.2)))
      j ((runEvs (keystrokeEv app0 k.1 k.2)
          (ks.map (fun p => Ev.keystroke p.1 p.2))).now + DebounceDelay)
      ((runEvs (keystrokeEv app0 k.1 k.2)
          (ks.map (fun p => Ev.keystroke p.1 p.2))).query)
      ((ks.getLastD k).1 + DebounceDelay)
      b1 (by rw [hlast1])
    calc (runEvs app0 (((k :: ks).map (fun p => Ev.keystroke p.1 p.2))
            ++ [Ev.tick ((ks.getLastD k).1 + DebounceDelay)])).emitted
        = (advanceTo (runEvs (keystrokeEv app0 k.1 k.2)
            (ks.map (fun p => Ev.keystroke p.1 p.2)))
            ((ks.getLastD k).1 + DebounceDelay)).emitted := by
          rw [runEvs_append]
          rfl
      _ = (runEvs (keystrokeEv app0 k.1 k.2)
            (ks.map (fun p => Ev.keystroke p.1 p.2))).emitted
          ++ [((runEvs (keystrokeEv app0 k.1 k.2)
              (ks.map (fun p => Ev.keystroke p.1 p.2))).now + DebounceDelay,
            (runEvs (keystrokeEv app0 k.1 k.2)
              (ks.map (fun p => Ev.keystroke p.1 p.2))).query)] := e1
      _ = [((ks.getLastD k).1 + DebounceDelay, (ks.getLastD k).2)] := by
          rw [b3, s6, hlast1, hlast2]
          rfl
  · intro i
    exact (runEvs_timerInv _ app0 happ0inv).1

/-- C2 witness: two keystrokes 999 ms apart collapse to the single
emission of the final text, 4000 ms after the last keystroke. -/
theorem debounce_collapses_keystrokes_witness :
    (runEvs app0 [Ev.keystroke 10001 "a", Ev.keystroke 11000 "ab",
        Ev.tick 15000]).emitted = [(15000, "ab")] :=
  (debounce_collapses_keystrokes (10001, "a") [(11000, "ab")]
      (by decide) (by decide)
      (List.Chain.cons ⟨by decide, by decide, by decide⟩ List.Chain.nil)).1

/-- C10 witness at a concrete transport failure. -/
theorem request_failure_frame_witness :
    (searchPublicationsRun app0 "q" 2
        (FetchEvent.reject "TypeError: fetch failed") 0).currentPage
      = app0.currentPage ∧
    (searchPublicationsRun app0 "q" 2
        (FetchEvent.reject "TypeError: fetch failed") 0).error
      = some (jsErrMsg (JsThrown.error "TypeError: fetch failed")) :=
  ⟨(request_failure_frame app0 "q" 2 (FetchEvent.reject "TypeError: fetch failed")
      0 (JsThrown.error "TypeError: fetch failed") rfl).2.2.1,
   (request_failure_frame app0 "q" 2 (FetchEvent.reject "TypeError: fetch failed")
      0 (JsThrown.error "TypeError: fetch failed") rfl).2.2.2.2.2.2.2.2.1⟩

end IRSearch
